import Mathlib

/-!
Shallow embedding of `src/utils.py` from the cooklang-import repository.

The module embeds the three routines the specification covers:
`sub_lists`, `highlight_replacement_in_text` and `write_to_file`.
Python integers are modelled as `Int`, Python strings as `String`,
Python list/string slicing by `pySliceIdx`/`pySliceL`/`pySlice`,
string repetition (`s * k`) by `pyRepeat`, and the two exceptions the
code can raise (`NameError` from the undefined identifier `lent`,
`IndexError` from `sys.argv[1]`) by the `PyError` type.  The filesystem
touched by `write_to_file` is a map from filenames to contents, and
`sys.argv` is passed explicitly as a list of strings.
-/

namespace CooklangImport

/-- Exceptions the embedded code can raise: `NameError` for the undefined
identifier `lent` in `highlight_replacement_in_text`, `IndexError` for
`sys.argv[1]` when the argument list is too short. -/
inductive PyError where
  | nameError
  | indexError
deriving DecidableEq, Repr

/-- Python slice-index normalisation for a sequence of length `n`:
a negative index counts from the end (clamped below at 0), a
non-negative index is clamped above at `n`. -/
def pySliceIdx (n : Nat) (i : Int) : Nat :=
  if i < 0 then ((n : Int) + i).toNat else min i.toNat n

/-- Python slicing `l[a:b]` (step 1) on lists. -/
def pySliceL (l : List α) (a b : Int) : List α :=
  (l.drop (pySliceIdx l.length a)).take (pySliceIdx l.length b - pySliceIdx l.length a)

/-- Python slicing `s[a:b]` on strings. -/
def pySlice (s : String) (a b : Int) : String :=
  String.mk (pySliceL s.data a b)

/-- Python string repetition `s * k` (empty for `k <= 0`). -/
def pyRepeat (s : String) (k : Int) : String :=
  String.mk (List.replicate k.toNat s.data).flatten

/-- Embedding of `sub_lists` (src/utils.py lines 12-20):
`lists = [[]]`, then for `i in range(len(l)+1)`, for `j in range(i)`,
append `l[j:i]`. -/
def sub_lists (l : List α) : List (List α) :=
  [([] : List α)] ++
    (List.range (l.length + 1)).flatMap
      (fun i => (List.range i).map (fun (j : Nat) => pySliceL l (j : Int) (i : Int)))

/-- Embedding of `highlight_replacement_in_text` (src/utils.py lines 22-33).
Returns the two lines written to stderr (each `eprint(a, b)` joins its
arguments with a single space), or the `NameError` raised by the undefined
identifier `lent` when the branch `end > len(instructions)` is taken. -/
def highlight_replacement_in_text (instructions : String) (match_start match_end : Int) :
    Except PyError (List String) :=
  let start0 := match_start - 18
  let end0 := match_end + 18
  let start1 := if start0 < 0 then 0 else start0
  if end0 > (instructions.length : Int) then
    Except.error PyError.nameError
  else
    Except.ok
      ["..." ++ " " ++ pySlice instructions start1 end0 ++ " " ++ "...",
       pyRepeat " " (3 + match_start - start1) ++ " " ++
         pyRepeat "^" (match_end - match_start)]

/-- Embedding of `write_to_file` (src/utils.py lines 35-49).
`open(f"{title}.cook", "w")` creates/truncates the file first; then the
f-string `f">> source: {sys.argv[1]}\n"` is evaluated, raising `IndexError`
when `argv` has fewer than two elements (leaving the truncated file behind);
otherwise the four `write` calls fill in the content.  The `with` block
closes the handle on both paths.  The parameter `link` is never used. -/
def write_to_file (argv : List String) (fs : String → Option String)
    (title link total_time image instructions : String) :
    Except PyError Unit × (String → Option String) :=
  let fname := title ++ ".cook"
  let fs1 : String → Option String := fun n => if n = fname then some "" else fs n
  match argv[1]? with
  | none => (Except.error PyError.indexError, fs1)
  | some src =>
      let content :=
        ">> source: " ++ src ++ "\n" ++
        ">> time required: " ++ total_time ++ " minutes\n" ++
        ">> image: " ++ image ++ "\n" ++ "\n" ++
        instructions
      (Except.ok (), fun n => if n = fname then some content else fs n)

/-! ### Helper lemmas -/

lemma flatten_replicate_singleton (m : Nat) (c : Char) :
    (List.replicate m [c]).flatten = List.replicate m c := by
  induction m with
  | zero => rfl
  | succ k ih => simp [List.replicate_succ, ih]

lemma pyRepeat_space (k : Int) :
    pyRepeat " " k = String.mk (List.replicate k.toNat ' ') := by
  unfold pyRepeat
  rw [show (" " : String).data = [' '] from rfl, flatten_replicate_singleton]

lemma pyRepeat_caret (k : Int) :
    pyRepeat "^" k = String.mk (List.replicate k.toNat '^') := by
  unfold pyRepeat
  rw [show ("^" : String).data = ['^'] from rfl, flatten_replicate_singleton]

/-- Sample text used by the specification's highlighter test. -/
def txt36 : String := "0123456789abcdefghijklmnopqrstuvwxyz"

/-! ### Claims about the context highlighter -/

/-- C1: the claim fails on the code.  For the well-formed span
`(0, 3)` on the three-character text `"abc"` (so `0 <= 0 <= 3 <= 3`), the
window's upper bound `3 + 18` exceeds the text length, the branch
`end > len(instructions)` executes `end = lent(instructions)` with the
undefined name `lent`, and the call raises `NameError` instead of clamping. -/
theorem highlight_nameError_on_wellformed_span :
    highlight_replacement_in_text "abc" 0 3 = Except.error PyError.nameError := by
  rfl

/-- C10: when `match_end + 18 <= len(instructions)`, the upper clamp branch
(and with it the unresolved name `lent`) is unreachable: the call completes
without raising and emits exactly two lines to the diagnostic stream. -/
theorem highlight_safe_when_window_fits (instructions : String) (ms me : Int)
    (h : me + 18 ≤ (instructions.length : Int)) :
    ∃ l1 l2, highlight_replacement_in_text instructions ms me = Except.ok [l1, l2] := by
  refine ⟨"..." ++ " " ++
      pySlice instructions (if ms - 18 < 0 then 0 else ms - 18) (me + 18) ++ " " ++ "...",
    pyRepeat " " (3 + ms - (if ms - 18 < 0 then 0 else ms - 18)) ++ " " ++
      pyRepeat "^" (me - ms), ?_⟩
  simp only [highlight_replacement_in_text]
  rw [if_neg (show ¬(me + 18 > (instructions.length : Int)) from by omega)]

/-- Witness for C10 at a concrete input. -/
theorem highlight_safe_when_window_fits_witness :
    (15 : Int) + 18 ≤ (txt36.length : Int) ∧
      ∃ l1 l2, highlight_replacement_in_text txt36 10 15 = Except.ok [l1, l2] :=
  ⟨by decide, highlight_safe_when_window_fits txt36 10 15 (by decide)⟩

/-- C5 counterexample: for the spec's own test input (`txt36`,
`matchStart = 10`, `matchEnd = 15`, clamped window start 0), the emitted
caret line has 14 leading spaces — `print`'s argument separator adds one to
the 13 the claim counts — so it is not 13 spaces followed by the carets. -/
theorem highlight_caret_line_counterexample :
    highlight_replacement_in_text txt36 10 15 =
      Except.ok ["... 0123456789abcdefghijklmnopqrstuvw ...",
                 "              ^^^^^"] ∧
    ("              ^^^^^" : String) ≠ ("             ^^^^^" : String) := by
  exact ⟨rfl, by decide⟩

/-- C5 (amended): for a well-formed span (`0 <= matchStart <= matchEnd`)
whose window fits below the text length (`matchEnd + 18 <= len(text)`),
line 1 is the marker, a separator space, the clamped substring, a separator
space and the closing marker; line 2 has exactly
`4 + (matchStart - start)` leading spaces (3 for the marker, 1 for the
`print` separator, plus the offset of the match from the clamped window
start `start = max (matchStart - 18) 0`) followed by exactly
`matchEnd - matchStart` caret characters. -/
theorem highlight_output_shape (text : String) (ms me : Int)
    (h0 : 0 ≤ ms) (h1 : ms ≤ me) (h2 : me + 18 ≤ (text.length : Int)) :
    highlight_replacement_in_text text ms me =
      Except.ok
        ["... " ++ pySlice text (max (ms - 18) 0) (me + 18) ++ " ...",
         String.mk (List.replicate (4 + ms - max (ms - 18) 0).toNat ' ' ++
           List.replicate (me - ms).toNat '^')] := by
  have hstart : (if ms - 18 < 0 then (0 : Int) else ms - 18) = max (ms - 18) 0 := by
    split <;> omega
  have hk : (4 + ms - max (ms - 18) 0).toNat = (3 + ms - max (ms - 18) 0).toNat + 1 := by
    omega
  have hline1 :
      ("..." ++ " " ++ pySlice text (max (ms - 18) 0) (me + 18) ++ " " ++ "...") =
        ("... " ++ pySlice text (max (ms - 18) 0) (me + 18) ++ " ...") := by
    apply String.ext
    simp only [String.data_append, List.append_assoc]
    simp
  have hline2 :
      pyRepeat " " (3 + ms - max (ms - 18) 0) ++ " " ++ pyRepeat "^" (me - ms) =
        String.mk (List.replicate (4 + ms - max (ms - 18) 0).toNat ' ' ++
          List.replicate (me - ms).toNat '^') := by
    rw [pyRepeat_space, pyRepeat_caret, hk]
    apply String.ext
    simp only [String.data_append]
    rw [List.replicate_succ']
  simp only [highlight_replacement_in_text]
  rw [if_neg (show ¬(me + 18 > (text.length : Int)) from by omega), hstart, hline1, hline2]

/-- Witness for the amended C5 at the spec's test input. -/
theorem highlight_output_shape_witness :
    ((0 : Int) ≤ 10 ∧ (10 : Int) ≤ 15 ∧ (15 : Int) + 18 ≤ (txt36.length : Int)) ∧
      highlight_replacement_in_text txt36 10 15 =
        Except.ok
          ["... " ++ pySlice txt36 (max (10 - 18) 0) (15 + 18) ++ " ...",
           String.mk (List.replicate ((4 : Int) + 10 - max (10 - 18) 0).toNat ' ' ++
             List.replicate ((15 : Int) - 10).toNat '^')] :=
  ⟨⟨by decide, by decide, by decide⟩,
    highlight_output_shape txt36 10 15 (by decide) (by decide) (by decide)⟩

/-! ### Claims about the recipe writer -/

lemma content_merge (src total_time image instructions : String) :
    ">> source: " ++ src ++ "\n" ++
        ">> time required: " ++ total_time ++ " minutes\n" ++
        ">> image: " ++ image ++ "\n" ++ "\n" ++ instructions =
      ">> source: " ++ src ++ "\n>> time required: " ++ total_time ++
        " minutes\n>> image: " ++ image ++ "\n\n" ++ instructions := by
  apply String.ext
  simp [String.data_append]

lemma write_to_file_eq_ok (argv : List String) (fs : String → Option String)
    (title link total_time image instructions src : String)
    (h : argv[1]? = some src) :
    write_to_file argv fs title link total_time image instructions =
      (Except.ok (), fun n => if n = title ++ ".cook"
        then some (">> source: " ++ src ++ "\n>> time required: " ++ total_time ++
          " minutes\n>> image: " ++ image ++ "\n\n" ++ instructions)
        else fs n) := by
  unfold write_to_file
  rw [h]
  simp only [content_merge]

lemma write_to_file_eq_err (argv : List String) (fs : String → Option String)
    (title link total_time image instructions : String)
    (h : argv[1]? = none) :
    write_to_file argv fs title link total_time image instructions =
      (Except.error PyError.indexError,
        fun n => if n = title ++ ".cook" then some "" else fs n) := by
  unfold write_to_file
  rw [h]

/-- C4: on success (`sys.argv[1]` present) the file written is named exactly
`<title>.cook` and holds, in order, the `>> source:` line, the
`>> time required: <total_time> minutes` line, the `>> image:` line, one
blank line, and the instructions verbatim with no trailing newline added. -/
theorem write_to_file_content (argv : List String) (fs : String → Option String)
    (title link total_time image instructions src : String)
    (h : argv[1]? = some src) :
    (write_to_file argv fs title link total_time image instructions).1 = Except.ok () ∧
    (write_to_file argv fs title link total_time image instructions).2 (title ++ ".cook") =
      some (">> source: " ++ src ++ "\n>> time required: " ++ total_time ++
        " minutes\n>> image: " ++ image ++ "\n\n" ++ instructions) := by
  rw [write_to_file_eq_ok argv fs title link total_time image instructions src h]
  exact ⟨rfl, by simp⟩

/-- Witness for C4 at concrete inputs. -/
theorem write_to_file_content_witness :
    (["prog", "http://x"] : List String)[1]? = some "http://x" ∧
    ((write_to_file ["prog", "http://x"] (fun _ => none) "Pasta" "L" "30" "img.png"
        "Cook it.").1 = Except.ok () ∧
      (write_to_file ["prog", "http://x"] (fun _ => none) "Pasta" "L" "30" "img.png"
        "Cook it.").2 ("Pasta" ++ ".cook") =
        some (">> source: " ++ "http://x" ++ "\n>> time required: " ++ "30" ++
          " minutes\n>> image: " ++ "img.png" ++ "\n\n" ++ "Cook it.")) :=
  ⟨rfl, write_to_file_content ["prog", "http://x"] (fun _ => none) "Pasta" "L" "30"
    "img.png" "Cook it." "http://x" rfl⟩

/-- C3: the `link` parameter has no effect on the result — the outputs of
two calls differing only in `link` are identical — and on success the
`>> source:` line of the file holds `sys.argv[1]`. -/
theorem write_to_file_link_irrelevant (argv : List String) (fs : String → Option String)
    (title l1 l2 total_time image instructions : String) :
    write_to_file argv fs title l1 total_time image instructions =
      write_to_file argv fs title l2 total_time image instructions ∧
    (∀ src, argv[1]? = some src →
      ∃ rest, (write_to_file argv fs title l1 total_time image instructions).2
          (title ++ ".cook") = some (">> source: " ++ src ++ "\n" ++ rest)) := by
  refine ⟨rfl, fun src h => ⟨">> time required: " ++ total_time ++ " minutes\n>> image: " ++
    image ++ "\n\n" ++ instructions, ?_⟩⟩
  rw [write_to_file_eq_ok argv fs title l1 total_time image instructions src h]
  simp only [if_pos]
  refine congrArg some (String.ext ?_)
  simp [String.data_append]

/-- Witness for C3 at concrete inputs. -/
theorem write_to_file_link_irrelevant_witness :
    (["prog", "http://x"] : List String)[1]? = some "http://x" ∧
    ∃ rest, (write_to_file ["prog", "http://x"] (fun _ => none) "Pasta" "linkA" "30"
        "img.png" "Cook it.").2 ("Pasta" ++ ".cook") =
      some (">> source: " ++ "http://x" ++ "\n" ++ rest) :=
  ⟨rfl, (write_to_file_link_irrelevant ["prog", "http://x"] (fun _ => none) "Pasta"
    "linkA" "linkB" "30" "img.png" "Cook it.").2 "http://x" rfl⟩

/-- C2 counterexample: with `argv = ["prog"]` (no second element) the call
raises `IndexError`, yet the file `Pasta.cook` exists afterwards with empty
content — so it is not true that on error no file remains. -/
theorem write_error_leaves_empty_file :
    (write_to_file ["prog"] (fun _ => none) "Pasta" "L" "30" "img" "body").1 =
      Except.error PyError.indexError ∧
    (write_to_file ["prog"] (fun _ => none) "Pasta" "L" "30" "img" "body").2 "Pasta.cook" =
      some "" := by
  exact ⟨rfl, by decide⟩

/-- C2 (amended): the scoped handle is closed on both paths, and the file
`<title>.cook` is created (or truncated) unconditionally at open: on success
it holds the complete content, but on the `IndexError` path (missing
`sys.argv[1]`) an empty `<title>.cook` remains on disk rather than none. -/
theorem write_to_file_all_or_truncated (argv : List String) (fs : String → Option String)
    (title link total_time image instructions : String) :
    (∃ src, argv[1]? = some src ∧
      (write_to_file argv fs title link total_time image instructions).1 = Except.ok () ∧
      (write_to_file argv fs title link total_time image instructions).2
          (title ++ ".cook") =
        some (">> source: " ++ src ++ "\n>> time required: " ++ total_time ++
          " minutes\n>> image: " ++ image ++ "\n\n" ++ instructions)) ∨
    ((write_to_file argv fs title link total_time image instructions).1 =
        Except.error PyError.indexError ∧
      (write_to_file argv fs title link total_time image instructions).2
          (title ++ ".cook") = some "") := by
  cases h : argv[1]? with
  | none =>
      right
      rw [write_to_file_eq_err argv fs title link total_time image instructions h]
      exact ⟨rfl, by simp⟩
  | some src =>
      left
      refine ⟨src, rfl, ?_⟩
      rw [write_to_file_eq_ok argv fs title link total_time image instructions src h]
      exact ⟨rfl, by simp⟩

/-- C8: writing twice with the same title leaves the file holding exactly the
content of the second write — the same content a single second write gives —
with nothing appended from the first write. -/
theorem write_to_file_twice_overwrites (argv : List String) (fs : String → Option String)
    (title l1 l2 t1 t2 i1 i2 in1 in2 src : String)
    (h : argv[1]? = some src) :
    (write_to_file argv (write_to_file argv fs title l1 t1 i1 in1).2
        title l2 t2 i2 in2).2 (title ++ ".cook") =
      some (">> source: " ++ src ++ "\n>> time required: " ++ t2 ++
        " minutes\n>> image: " ++ i2 ++ "\n\n" ++ in2) ∧
    (write_to_file argv (write_to_file argv fs title l1 t1 i1 in1).2
        title l2 t2 i2 in2).2 (title ++ ".cook") =
      (write_to_file argv fs title l2 t2 i2 in2).2 (title ++ ".cook") := by
  rw [write_to_file_eq_ok argv fs title l1 t1 i1 in1 src h,
    write_to_file_eq_ok argv _ title l2 t2 i2 in2 src h,
    write_to_file_eq_ok argv fs title l2 t2 i2 in2 src h]
  exact ⟨by simp, by simp⟩

/-- Witness for C8 at concrete inputs. -/
theorem write_to_file_twice_overwrites_witness :
    (["prog", "http://x"] : List String)[1]? = some "http://x" ∧
    (write_to_file ["prog", "http://x"]
        (write_to_file ["prog", "http://x"] (fun _ => none) "Pasta" "lA" "10" "a.png" "A").2
        "Pasta" "lB" "20" "b.png" "B").2 ("Pasta" ++ ".cook") =
      some (">> source: " ++ "http://x" ++ "\n>> time required: " ++ "20" ++
        " minutes\n>> image: " ++ "b.png" ++ "\n\n" ++ "B") :=
  ⟨rfl, (write_to_file_twice_overwrites ["prog", "http://x"] (fun _ => none) "Pasta"
    "lA" "lB" "10" "20" "a.png" "b.png" "A" "B" "http://x" rfl).1⟩

/-- C9: when the process argument list has fewer than two elements the call
raises `IndexError`, but only after `<title>.cook` has been created or
truncated, so an empty file is left behind. -/
theorem write_to_file_indexError_short_argv (argv : List String)
    (fs : String → Option String) (title link total_time image instructions : String)
    (h : argv.length < 2) :
    (write_to_file argv fs title link total_time image instructions).1 =
      Except.error PyError.indexError ∧
    (write_to_file argv fs title link total_time image instructions).2
        (title ++ ".cook") = some "" := by
  have h1 : argv[1]? = none := List.getElem?_eq_none (by omega)
  rw [write_to_file_eq_err argv fs title link total_time image instructions h1]
  exact ⟨rfl, by simp⟩

/-- Witness for C9 at concrete inputs. -/
theorem write_to_file_indexError_short_argv_witness :
    ([] : List String).length < 2 ∧
    ((write_to_file [] (fun _ => none) "T" "L" "30" "I" "B").1 =
        Except.error PyError.indexError ∧
      (write_to_file [] (fun _ => none) "T" "L" "30" "I" "B").2
          ("T" ++ ".cook") = some "") :=
  ⟨by decide, write_to_file_indexError_short_argv [] (fun _ => none) "T" "L" "30" "I" "B"
    (by decide)⟩

/-! ### Claims about the sublist generator -/

lemma pySliceL_nat (l : List α) (j i : Nat) (hj : j ≤ l.length) (hi : i ≤ l.length) :
    pySliceL l (j : Int) (i : Int) = (l.drop j).take (i - j) := by
  unfold pySliceL pySliceIdx
  rw [if_neg (show ¬((j : Int) < 0) from by omega),
    if_neg (show ¬((i : Int) < 0) from by omega)]
  simp only [Int.toNat_ofNat]
  rw [Nat.min_eq_left hj, Nat.min_eq_left hi]

lemma sum_range_mul_two (n : Nat) : (List.range n).sum * 2 = n * (n - 1) := by
  induction n with
  | zero => rfl
  | succ k ih =>
      rw [List.range_succ, List.sum_append]
      simp only [List.sum_cons, List.sum_nil, Nat.add_zero]
      have hk : (k + 1) * (k + 1 - 1) = k * (k - 1) + 2 * k := by
        cases k with
        | zero => rfl
        | succ m => simp only [Nat.succ_sub_one]; ring
      omega

/-- End/start index pairs `(i, j)` with `j < i <= n`, in the order the nested
loops of `sub_lists` visit them: outer loop over the end index `i`, inner
loop over the start index `j`. -/
def endStartPairs (n : Nat) : List (Nat × Nat) :=
  (List.range (n + 1)).flatMap (fun i => (List.range i).map (fun j => (i, j)))

lemma mem_endStartPairs (n : Nat) (p : Nat × Nat) (hp : p ∈ endStartPairs n) :
    p.2 < p.1 ∧ p.1 ≤ n := by
  simp only [endStartPairs, List.mem_flatMap, List.mem_map, List.mem_range] at hp
  obtain ⟨i, hi, j, hj, rfl⟩ := hp
  exact ⟨hj, by omega⟩

lemma endStartPairs_sorted (n : Nat) :
    List.Pairwise (fun p q : Nat × Nat => p.1 < q.1 ∨ (p.1 = q.1 ∧ p.2 < q.2))
      (endStartPairs n) := by
  induction n with
  | zero => decide
  | succ k ih =>
      have hsplit : endStartPairs (k + 1) =
          endStartPairs k ++ (List.range (k + 1)).map (fun j => (k + 1, j)) := by
        unfold endStartPairs
        rw [List.range_succ, List.flatMap_append]
        simp
      rw [hsplit, List.pairwise_append]
      refine ⟨ih, ?_, ?_⟩
      · rw [List.pairwise_map]
        exact (List.pairwise_lt_range (k + 1)).imp (fun h => Or.inr ⟨rfl, h⟩)
      · intro a ha b hb
        obtain ⟨-, ha2⟩ := mem_endStartPairs k a ha
        obtain ⟨j, -, rfl⟩ := List.mem_map.mp hb
        exact Or.inl (by omega)

lemma sub_lists_tail (l : List α) :
    (sub_lists l).tail =
      (endStartPairs l.length).map (fun p => pySliceL l (p.2 : Int) (p.1 : Int)) := by
  unfold sub_lists endStartPairs
  rw [List.singleton_append, List.tail_cons, List.map_flatMap]
  refine congrArg (List.flatMap (List.range (l.length + 1))) (funext fun i => ?_)
  simp [Function.comp]

lemma sub_lists_sound (l : List α) :
    ∀ s ∈ sub_lists l, ∃ j i, j ≤ i ∧ i ≤ l.length ∧ s = (l.drop j).take (i - j) := by
  intro s hs
  rcases List.mem_append.mp hs with h | h
  · simp only [List.mem_singleton] at h
    subst h
    exact ⟨0, 0, Nat.le_refl 0, Nat.zero_le _, rfl⟩
  · simp only [List.mem_flatMap, List.mem_map, List.mem_range] at h
    obtain ⟨i, hi, j, hj, rfl⟩ := h
    exact ⟨j, i, by omega, by omega, pySliceL_nat l j i (by omega) (by omega)⟩

lemma sub_lists_complete (l : List α) (j i : Nat) (hj : j ≤ i) (hi : i ≤ l.length) :
    (l.drop j).take (i - j) ∈ sub_lists l := by
  rcases Nat.eq_or_lt_of_le hj with rfl | hlt
  · simp [sub_lists, Nat.sub_self]
  · refine List.mem_append.mpr (Or.inr ?_)
    simp only [List.mem_flatMap, List.mem_map, List.mem_range]
    exact ⟨i, by omega, j, hlt, pySliceL_nat l j i (by omega) hi⟩

lemma sub_lists_flat_length (l : List α) (m : Nat) :
    ((List.range m).flatMap
        (fun i => (List.range i).map (fun (j : Nat) => pySliceL l (j : Int) (i : Int)))).length =
      (List.range m).sum := by
  induction m with
  | zero => rfl
  | succ k ih =>
      rw [List.range_succ, List.flatMap_append, List.length_append, ih, List.sum_append]
      simp

/-- C6: for an input of length `n`, `sub_lists` returns exactly
`1 + n * (n + 1) / 2` elements, the first of which is the empty list. -/
theorem sub_lists_count_and_head (l : List α) :
    (sub_lists l).length = 1 + l.length * (l.length + 1) / 2 ∧
    (sub_lists l).head? = some [] := by
  constructor
  · have hsum := sum_range_mul_two (l.length + 1)
    simp only [Nat.add_sub_cancel] at hsum
    have hc : (l.length + 1) * l.length = l.length * (l.length + 1) := Nat.mul_comm _ _
    rw [sub_lists, List.length_append, sub_lists_flat_length]
    simp only [List.length_singleton]
    omega
  · rfl

/-- C7: every element of `sub_lists l` is a contiguous segment of `l`, every
contiguous segment occurs, and the non-empty segments (the tail, after the
leading empty list) are enumerated by strictly increasing end index and,
within each end index, strictly increasing start index. -/
theorem sub_lists_enumeration (l : List α) :
    (sub_lists l).tail =
        (endStartPairs l.length).map (fun p => pySliceL l (p.2 : Int) (p.1 : Int)) ∧
    List.Pairwise (fun p q : Nat × Nat => p.1 < q.1 ∨ (p.1 = q.1 ∧ p.2 < q.2))
        (endStartPairs l.length) ∧
    (∀ s ∈ sub_lists l, ∃ j i, j ≤ i ∧ i ≤ l.length ∧ s = (l.drop j).take (i - j)) ∧
    (∀ j i, j ≤ i → i ≤ l.length → (l.drop j).take (i - j) ∈ sub_lists l) :=
  ⟨sub_lists_tail l, endStartPairs_sorted l.length, sub_lists_sound l,
    fun j i hj hi => sub_lists_complete l j i hj hi⟩

/-- Witness for C7 at a concrete input. -/
theorem sub_lists_enumeration_witness :
    ((0 : Nat) ≤ 2 ∧ (2 : Nat) ≤ ([10, 20] : List Nat).length) ∧
      (([10, 20] : List Nat).drop 0).take (2 - 0) ∈ sub_lists [10, 20] :=
  ⟨⟨by decide, by decide⟩,
    (sub_lists_enumeration [10, 20]).2.2.2 0 2 (by decide) (by decide)⟩

end CooklangImport
